import Mathlib

/-!
Shallow embedding of the Shamela book exporter (`ShamelaExporter.java`).

Strings are modelled as Lean `String` (a structure over `List Char`); all
text transformations are executable scanners over `List Char` that mirror
the Java `String.replace` / `replaceAll` / `replaceFirst` calls of the
source, pass by pass and in the source's order.  Each scanner uses an
explicit fuel argument equal to the input length so that every definition
is structurally recursive and kernel-evaluable.
-/

namespace Shamela

/-- Character from a code point (abbreviation used for Arabic code points). -/
def chr (n : Nat) : Char := Char.ofNat n

/-- Double-quote character. -/
def dq : Char := chr 34

/-- Java `\s` (ASCII whitespace as matched by the regexes of the source):
space, tab, newline, vertical tab, form feed, carriage return. -/
def isJavaSpace (c : Char) : Bool :=
  c == ' ' || c == '\t' || c == '\n' || c == chr 11 || c == chr 12 || c == '\r'

/-- Does `needle` lead (is it a prefix of) `s`? -/
def leadsWith : List Char → List Char → Bool
  | [], _ => true
  | _ :: _, [] => false
  | a :: as, b :: bs => a == b && leadsWith as bs

/-- Does `needle` occur as a contiguous substring of `s`? -/
def hasSub (needle : List Char) : List Char → Bool
  | [] => needle.isEmpty
  | c :: rest => leadsWith needle (c :: rest) || hasSub needle rest

/-- String-level substring test (`String.contains(CharSequence)` in Java). -/
def hasSubS (s pat : String) : Bool := hasSub pat.data s.data

/-- String-level test that `s` starts with `pat` (`String.startsWith`). -/
def leadsWithS (s pat : String) : Bool := leadsWith pat.data s.data

/-- Drop a literal from the front of `s`, or fail. -/
def dropLit (lit s : List Char) : Option (List Char) :=
  if leadsWith lit s then some (s.drop lit.length) else none

/-- One pass of a regex-style `replaceAll`: scan left to right, and where the
matcher fires, emit its replacement and continue right after the matched
region (the matcher returns the replacement and the number of characters it
consumed, always at least one at a match).  Fuel-driven so that the
definition is structural. -/
def scanReplF (m : List Char → Option (List Char × Nat)) : Nat → List Char → List Char
  | 0, s => s
  | _ + 1, [] => []
  | fuel + 1, c :: rest =>
    match m (c :: rest) with
    | some (r, k) => r ++ scanReplF m fuel (List.drop (k - 1) rest)
    | none => c :: scanReplF m fuel rest

/-- `replaceAll` driver with fuel set to the input length (always enough,
since every match consumes at least one character). -/
def scanRepl (m : List Char → Option (List Char × Nat)) (s : List Char) : List Char :=
  scanReplF m s.length s

/-- `replaceFirst` driver: like `scanRepl` but stops after the first match. -/
def scanReplFirst (m : List Char → Option (List Char × Nat)) : List Char → List Char
  | [] => []
  | c :: rest =>
    match m (c :: rest) with
    | some (r, k) => r ++ List.drop (k - 1) rest
    | none => c :: scanReplFirst m rest

/-- Driver for a pattern anchored at the start of the text (`^...` with no
MULTILINE flag): at most one replacement, at position zero. -/
def replStart (m : List Char → Option (List Char × Nat)) (s : List Char) : List Char :=
  match m s with
  | some (r, k) => r ++ s.drop k
  | none => s

/-- Literal, non-overlapping, left-to-right `String.replace` (all
occurrences).  An empty needle never matches (the source never passes one). -/
def replaceAllL (needle repl : List Char) (s : List Char) : List Char :=
  scanRepl (fun t => if needle.isEmpty then none
                     else if leadsWith needle t then some (repl, needle.length) else none) s

/- ### Diacritic reordering (`reorderDiacritics`) -/

/-- Shadda / gemination mark U+0651. -/
def shaddaCh : Char := chr 0x651

/-- The character class `[َ-ِْ]` of the first swap: fatha,
damma, kasra, sukun. -/
def isSwapVowel (c : Char) : Bool :=
  c == chr 0x64E || c == chr 0x64F || c == chr 0x650 || c == chr 0x652

/-- The tanween class `[ً-ٍ]` of the second swap. -/
def isTanween (c : Char) : Bool :=
  c == chr 0x64B || c == chr 0x64C || c == chr 0x64D

/-- Matcher for `([َ-ِْ])(ّ)` replaced by `$2$1`. -/
def swapShaddaMatch (s : List Char) : Option (List Char × Nat) :=
  match s with
  | a :: b :: _ => if isSwapVowel a && b == shaddaCh then some ([b, a], 2) else none
  | _ => none

/-- Matcher for `(ّ)([ً-ٍ])` replaced by `$2$1`. -/
def swapTanweenMatch (s : List Char) : Option (List Char × Nat) :=
  match s with
  | a :: b :: _ => if a == shaddaCh && isTanween b then some ([b, a], 2) else none
  | _ => none

/-- List-level `reorderDiacritics`: first swap each vowel/sukun with a
following shadda, then swap each shadda with a following tanween. -/
def reorderDiacriticsL (t : List Char) : List Char :=
  scanRepl swapTanweenMatch (scanRepl swapShaddaMatch t)

/-- Java `reorderDiacritics`: shadda is serialized before a plain short
vowel, tanween before shadda. -/
def reorderDiacritics (s : String) : String := ⟨reorderDiacriticsL s.data⟩

/- ### The `formatText` pipeline -/

/-- The combining-mark class `[ً-ْ]` (U+064B–U+0652) used by the
context-dependent ligature rule. -/
def isArabicDiac (c : Char) : Bool := 0x64B ≤ c.toNat && c.toNat ≤ 0x652

/-- Match one literal letter followed by any run of combining marks,
returning the matched text and the remainder. -/
def matchLetterDiac (letter : Char) (s : List Char) : Option (List Char × List Char) :=
  match s with
  | [] => none
  | c :: rest =>
    if c == letter then
      let d := rest.takeWhile isArabicDiac
      some (c :: d, rest.dropWhile isArabicDiac)
    else none

/-- Match a word given as a letter sequence, each letter optionally followed
by combining marks (the `ل…ّ*`-style building block of the Allah-words
alternation). -/
def matchWordDiac : List Char → List Char → Option (List Char × List Char)
  | [], s => some ([], s)
  | l :: ls, s =>
    match matchLetterDiac l s with
    | some (m, r) =>
      match matchWordDiac ls r with
      | some (m2, r2) => some (m ++ m2, r2)
      | none => none
    | none => none

/-- The three alternatives of the `allahWords` group, tried in the source's
order: الله, رب, الرب (each letter may carry combining marks). -/
def allahWordMatch (s : List Char) : Option (List Char × List Char) :=
  match matchWordDiac [chr 0x627, chr 0x644, chr 0x644, chr 0x647] s with
  | some r => some r
  | none =>
    match matchWordDiac [chr 0x631, chr 0x628] s with
    | some r => some r
    | none => matchWordDiac [chr 0x627, chr 0x644, chr 0x631, chr 0x628] s

/-- Matcher for `allahWords\s*﵇` replaced by `$1 عز وجل`: a divine-reference
word, optional whitespace, then the context-dependent ligature U+FD47. -/
def allahMatch (s : List Char) : Option (List Char × Nat) :=
  match allahWordMatch s with
  | some (g, r) =>
    let ws := r.takeWhile isJavaSpace
    match r.dropWhile isJavaSpace with
    | c :: _ =>
      if c == chr 0xFD47 then
        some (g ++ (" عز وجل").data, g.length + ws.length + 1)
      else none
    | [] => none
  | none => none

/-- Arabic-Indic digit (U+0660–U+0669) to the Western digit, all other
characters unchanged. -/
def arabicToWesternDigit (c : Char) : Char :=
  if 0x660 ≤ c.toNat && c.toNat ≤ 0x669 then Char.ofNat (48 + (c.toNat - 0x660)) else c

/-- Zero-width non-joiner entity inserted around title spans. -/
def zwjEnt : List Char := "&#8204;".data

/-- Matcher for `(<span data-type=['"]title['"][^>]*>)` replaced by
`&#8204;$1&#8204;`. -/
def titleSpan1Match (s : List Char) : Option (List Char × Nat) :=
  match dropLit ("<span data-type=").data s with
  | none => none
  | some r1 =>
    match r1 with
    | q :: r2 =>
      if q == '\'' || q == dq then
        match dropLit ("title").data r2 with
        | none => none
        | some r3 =>
          match r3 with
          | q2 :: r4 =>
            if q2 == '\'' || q2 == dq then
              let mid := r4.takeWhile (fun c => c != '>')
              match r4.dropWhile (fun c => c != '>') with
              | gt :: _ =>
                let matched := ("<span data-type=").data ++ [q] ++ ("title").data
                  ++ [q2] ++ mid ++ [gt]
                some (zwjEnt ++ matched ++ zwjEnt, matched.length)
              | [] => none
            else none
          | [] => none
      else none
    | [] => none

/-- Matcher for `(?<!&#8204;)(<span class=['"]title['"]>)` (the second title
span form): `pre` is the reversed original text before the current position,
used for the negative lookbehind. -/
def titleSpan2Match (pre s : List Char) : Option (List Char × Nat) :=
  if leadsWith zwjEnt.reverse pre then none
  else
    match dropLit ("<span class=").data s with
    | none => none
    | some r1 =>
      match r1 with
      | q :: r2 =>
        if q == '\'' || q == dq then
          match dropLit ("title").data r2 with
          | none => none
          | some r3 =>
            match r3 with
            | q2 :: r4 =>
              if (q2 == '\'' || q2 == dq) then
                match r4 with
                | gt :: _ =>
                  if gt == '>' then
                    let matched := ("<span class=").data ++ [q] ++ ("title").data
                      ++ [q2] ++ [gt]
                    some (zwjEnt ++ matched ++ zwjEnt, matched.length)
                  else none
                | [] => none
              else none
            | [] => none
        else none
      | [] => none

/-- Fuel-driven `replaceAll` scanner that also tracks the reversed original
prefix, for the one lookbehind pattern. -/
def scanReplLBF (m : List Char → List Char → Option (List Char × Nat)) :
    Nat → List Char → List Char → List Char
  | 0, _, s => s
  | _ + 1, _, [] => []
  | fuel + 1, pre, c :: rest =>
    match m pre (c :: rest) with
    | some (r, k) =>
      r ++ scanReplLBF m fuel (((c :: rest).take k).reverse ++ pre) (List.drop (k - 1) rest)
    | none => c :: scanReplLBF m fuel (c :: pre) rest

/-- Lookbehind `replaceAll` driver. -/
def scanReplLB (m : List Char → List Char → Option (List Char × Nat)) (s : List Char) :
    List Char :=
  scanReplLBF m s.length [] s

/-- The literal footnote-container opener produced by the underscore rule. -/
def footnoteDiv : List Char := ("<div class='footnote'>").data

/-- The horizontal-rule-plus-container replacement of the first underscore
separator. -/
def hrFootnote : List Char := ("<hr width='95' align='right'><div class='footnote'>").data

/-- Matcher for the literal `</p>_________</p>` (nine underscores),
used once via `replaceFirst`. -/
def hrSepMatch (s : List Char) : Option (List Char × Nat) :=
  let needle := ("</p>_________</p>").data
  if leadsWith needle s then some (hrFootnote, needle.length) else none

/-- Red-colored parenthesized number `<font color=#be0000>(N)</font>`. -/
def redParen (ds : List Char) : List Char :=
  ("<font color=#be0000>(").data ++ ds ++ (")</font>").data

/-- Match `(¬N)` at the current position: returns the digits and the
consumed length (`(`, `¬`, digits, `)`). -/
def notMarkerAt (s : List Char) : Option (List Char × Nat) :=
  match dropLit ("(¬").data s with
  | none => none
  | some r1 =>
    let ds := r1.takeWhile Char.isDigit
    if ds.isEmpty then none
    else
      match r1.dropWhile Char.isDigit with
      | c :: _ => if c == ')' then some (ds, 2 + ds.length + 1) else none
      | [] => none

/-- Matcher for `^\(¬(\d+)\)` (start of text). -/
def startNotMatch (s : List Char) : Option (List Char × Nat) :=
  match notMarkerAt s with
  | some (ds, k) => some (redParen ds, k)
  | none => none

/-- Matcher for `</p> ?\(¬(\d+)\)` replaced by `</p><font …>(N)</font>`. -/
def pNotMatch (s : List Char) : Option (List Char × Nat) :=
  match dropLit ("</p>").data s with
  | none => none
  | some r1 =>
    let (sp, r2) := match r1 with
      | c :: r2 => if c == ' ' then (1, r2) else (0, r1)
      | [] => (0, r1)
    match notMarkerAt r2 with
    | some (ds, k) => some (("</p>").data ++ redParen ds, 4 + sp + k)
    | none => none

/-- Matcher for `(<div class='footnote'>) ?\(¬(\d+)\)` replaced by
`$1<font …>($2)</font>`. -/
def divNotMatch (s : List Char) : Option (List Char × Nat) :=
  match dropLit footnoteDiv s with
  | none => none
  | some r1 =>
    let (sp, r2) := match r1 with
      | c :: r2 => if c == ' ' then (1, r2) else (0, r1)
      | [] => (0, r1)
    match notMarkerAt r2 with
    | some (ds, k) => some (footnoteDiv ++ redParen ds, footnoteDiv.length + sp + k)
    | none => none

/-- Matcher for the inline ` ?\(¬(\d+)\)` replaced by
`<sup><font …>(N)</font></sup>` (a leading space, when present, is consumed
and dropped). -/
def inlineNotMatch (s : List Char) : Option (List Char × Nat) :=
  let (sp, r) := match s with
    | c :: r => if c == ' ' then (1, r) else (0, s)
    | [] => (0, s)
  match notMarkerAt r with
  | some (ds, k) =>
    some (("<sup>").data ++ redParen ds ++ ("</sup>").data, sp + k)
  | none => none

/-- Matcher for `(<div class='footnote'>)\((\d+)\)` (plain marker at the
container start, any number of digits). -/
def divPlainMatch (s : List Char) : Option (List Char × Nat) :=
  match dropLit footnoteDiv s with
  | none => none
  | some r1 =>
    match r1 with
    | c :: r2 =>
      if c == '(' then
        let ds := r2.takeWhile Char.isDigit
        if ds.isEmpty then none
        else
          match r2.dropWhile Char.isDigit with
          | c2 :: _ =>
            if c2 == ')' then
              some (footnoteDiv ++ redParen ds, footnoteDiv.length + 1 + ds.length + 1)
            else none
          | [] => none
      else none
    | [] => none

/-- Matcher for `</p>\((\d{1,2})\) ` (plain marker after a paragraph break:
one or two digits, a closing parenthesis, then a space). -/
def pPlainMatch (s : List Char) : Option (List Char × Nat) :=
  match dropLit ("</p>(").data s with
  | none => none
  | some r1 =>
    match r1 with
    | d1 :: ')' :: ' ' :: _ =>
      if d1.isDigit then some (("</p>").data ++ redParen [d1] ++ [' '], 4 + 4) else none
    | d1 :: d2 :: ')' :: ' ' :: _ =>
      if d1.isDigit && d2.isDigit then
        some (("</p>").data ++ redParen [d1, d2] ++ [' '], 4 + 5)
      else none
    | _ => none

/-- Group-3 alternative of the numbered-entry rule: `&#8204;`, `<sup>`, or a
single whitespace character. -/
def numEntryG3 (r : List Char) : Option (List Char) :=
  if leadsWith zwjEnt r then some zwjEnt
  else if leadsWith ("<sup>").data r then some (("<sup>").data)
  else
    match r with
    | c :: _ => if isJavaSpace c then some [c] else none
    | [] => none

/-- Shared core of `(^|</p>)(\d+) -(&#8204;|<sup>|\s)`: after group 1 has
matched, match digits, the literal ` -`, and group 3; the replacement keeps
groups 1 and 3 and colors `N -`. -/
def numEntryCore (g1 : List Char) (r1 : List Char) : Option (List Char × Nat) :=
  let ds := r1.takeWhile Char.isDigit
  if ds.isEmpty then none
  else
    match dropLit (" -").data (r1.dropWhile Char.isDigit) with
    | none => none
    | some r3 =>
      match numEntryG3 r3 with
      | some g3 =>
        some (g1 ++ ("<font color=#be0000>").data ++ ds ++ (" -</font>").data ++ g3,
          g1.length + ds.length + 2 + g3.length)
      | none => none

/-- Matcher for the `</p>` alternative of group 1 of the numbered-entry
rule. -/
def numEntryMatch (s : List Char) : Option (List Char × Nat) :=
  match dropLit ("</p>").data s with
  | none => none
  | some r1 => numEntryCore (("</p>").data) r1

/-- Full numbered-entry pass `(^|</p>)(\d+) -(&#8204;|<sup>|\s)`: try the `^`
alternative at position zero, then scan for the `</p>` alternative. -/
def numEntryPass (s : List Char) : List Char :=
  match numEntryCore [] s with
  | some (r, k) => r ++ scanRepl numEntryMatch (s.drop k)
  | none => scanRepl numEntryMatch s

/-- Java `formatText` over the character list, replicating the source's
replacement pipeline step by step and in order. -/
def formatTextL (t0 : List Char) : List Char :=
  -- Reorder diacritics so shadda comes before vowels
  let t := reorderDiacriticsL t0
  -- Expand special Islamic Unicode characters
  let t := replaceAllL [chr 0xFDFD] ("بسم الله الرحمن الرحيم").data t
  let t := replaceAllL [chr 0xFDFA] ("صلى الله عليه وسلم").data t
  let t := replaceAllL [chr 0xFD40] ("رحمه الله").data t
  let t := replaceAllL [chr 0xFD4F] ("رحمهم الله").data t
  let t := replaceAllL [chr 0xFD41] ("رضي الله عنه").data t
  let t := replaceAllL [chr 0xFD44] ("رضي الله عنهما").data t
  let t := replaceAllL [chr 0xFD42] ("رضي الله عنها").data t
  let t := replaceAllL [chr 0xFD43] ("رضي الله عنهم").data t
  let t := replaceAllL [chr 0xFD49] ("عليه السلام").data t
  let t := replaceAllL [chr 0xFD4A] ("عليه الصلاة والسلام").data t
  let t := replaceAllL [chr 0xFD4D] ("عليها السلام").data t
  -- U+FD47 is context-dependent: عز وجل after a divine-reference word
  let t := scanRepl allahMatch t
  let t := replaceAllL [chr 0xFD47] ("عليه السلام").data t
  let t := replaceAllL [chr 0xFD4E] ("تبارك وتعالى").data t
  let t := replaceAllL [chr 0xFDFB] ("جل جلاله").data t
  let t := replaceAllL [chr 0xFDFE] ("سبحانه وتعالى").data t
  let t := replaceAllL [chr 0xFDFF] ("عز وجل").data t
  -- Remove stray footnote marker character
  let t := replaceAllL ("¬ ").data (" ").data t
  -- Replace ornate Quranic brackets with regular braces
  let t := replaceAllL [chr 0xFD3F] ("\x7b").data t
  let t := replaceAllL [chr 0xFD3E] ("\x7d").data t
  -- Convert Arabic-Indic numerals to Western
  let t := t.map arabicToWesternDigit
  -- Replace newlines with </p> paragraph breaks
  let t := replaceAllL ("\r\n").data ("</p>").data t
  let t := replaceAllL ("\n").data ("</p>").data t
  let t := replaceAllL ("\r").data ("</p>").data t
  -- Convert empty paragraphs to &nbsp; spacing
  let t := replaceAllL ("</p></p>").data ("</p>&nbsp;</p>").data t
  -- ZWNJ around title spans (two syntaxes, the second with a lookbehind)
  let t := scanRepl titleSpan1Match t
  let t := scanReplLB titleSpan2Match t
  -- First underscore separator becomes HR + footnote container
  let t := scanReplFirst hrSepMatch t
  -- Footnote references with ¬ marker, by position
  let t := replStart startNotMatch t
  let t := scanRepl pNotMatch t
  let t := scanRepl divNotMatch t
  let t := scanRepl inlineNotMatch t
  -- Plain footnote markers (N) without ¬
  let t := scanRepl divPlainMatch t
  let t := scanRepl pPlainMatch t
  -- Style ellipsis
  let t := replaceAllL ("…").data ("<font color=#be0000>…</font>").data t
  let t := replaceAllL (" ... ").data (" <font color=#be0000>…</font> ").data t
  -- Convert ASCII comma to Arabic comma
  let t := replaceAllL (",").data ("،").data t
  -- Style numbered entries N -
  numEntryPass t

/-- Java `formatText` (`null` inputs are handled by the callers, which pass
the empty string in that case). -/
def formatText (s : String) : String :=
  if s.isEmpty then "" else ⟨formatTextL s.data⟩

/- ### Numerals, filenames and filename sanitation -/

/-- Java `toArabicNumerals(int)`: decimal rendering with each Western digit
replaced by the Arabic-Indic digit (other characters, such as a minus sign,
pass through). -/
def toArabicNumerals (n : Int) : String :=
  ⟨(toString n).data.map (fun c =>
    if 48 ≤ c.toNat && c.toNat ≤ 57 then Char.ofNat (0x660 + (c.toNat - 48)) else c)⟩

/-- Java `toWesternNumerals`: each Arabic-Indic digit replaced by the Western
digit. -/
def toWesternNumerals (s : String) : String := ⟨s.data.map arabicToWesternDigit⟩

/-- Value of a run of decimal digits (callers guarantee the run is all
digits: `Integer.parseInt` on a `\d+` match). -/
def parseNatDigits (l : List Char) : Nat :=
  l.foldl (fun a c => 10 * a + (c.toNat - 48)) 0

/-- Java `Integer.parseInt` on an arbitrary string: optional sign then at
least one digit, `none` where Java throws `NumberFormatException`. -/
def parseIntJava (l : List Char) : Option Int :=
  match l with
  | [] => none
  | '-' :: r =>
    if !r.isEmpty && r.all Char.isDigit then some (-(parseNatDigits r : Int)) else none
  | '+' :: r =>
    if !r.isEmpty && r.all Char.isDigit then some ((parseNatDigits r : Int)) else none
  | _ => if l.all Char.isDigit then some ((parseNatDigits l : Int)) else none

/-- Java `partName.matches("\\d+")`: non-empty and all decimal digits. -/
def isNumericStr (s : String) : Bool := !s.data.isEmpty && s.data.all Char.isDigit

/-- Java `String.format("%03d", n)`: decimal rendering zero-padded on the
left to width three. -/
def fmt3 (n : Nat) : String :=
  let s := toString n
  if s.length < 3 then (⟨List.replicate (3 - s.length) '0'⟩ : String) ++ s else s

/-- Java `String.trim`: strip characters with code point at most U+0020 from
both ends. -/
def trimJava (l : List Char) : List Char :=
  ((l.dropWhile (fun c => c.toNat ≤ 32)).reverse.dropWhile (fun c => c.toNat ≤ 32)).reverse

/-- Collapse each run of whitespace into a single space
(`replaceAll("\\s+", " ")`), fuel-driven. -/
def collapseWsF : Nat → List Char → List Char
  | 0, s => s
  | _ + 1, [] => []
  | f + 1, c :: rest =>
    if isJavaSpace c then ' ' :: collapseWsF f (rest.dropWhile isJavaSpace)
    else c :: collapseWsF f rest

/-- The characters stripped by `safeName` (`[<>:"/\\|?*]`). -/
def illegalFileChar (c : Char) : Bool :=
  c == '<' || c == '>' || c == ':' || c == dq || c == '/' || c == '\\' ||
  c == '|' || c == '?' || c == '*'

/-- Java `safeName`: strip filesystem-illegal characters, collapse
whitespace, trim, cap at 200 characters (the `null` branch of the source
returns the empty string; callers here always pass a string). -/
def safeName (name : String) : String :=
  let l := name.data.filter (fun c => !illegalFileChar c)
  let l := collapseWsF l.length l
  let l := trimJava l
  ⟨l.take 200⟩

/- ### Betaka (book metadata) page -/

/-- Split on any of CRLF, CR, LF (Java `split("\\r\\n|\\r|\\n")`; Java also
drops trailing empty fragments, which the caller skips anyway because it
ignores empty lines). -/
def splitLinesF : Nat → List Char → List Char → List String
  | 0, cur, _ => [⟨cur.reverse⟩]
  | _ + 1, cur, [] => [⟨cur.reverse⟩]
  | f + 1, cur, c :: rest =>
    if c == '\r' then
      match rest with
      | c2 :: r2 =>
        if c2 == '\n' then (⟨cur.reverse⟩ : String) :: splitLinesF f [] r2
        else (⟨cur.reverse⟩ : String) :: splitLinesF f [] rest
      | [] => (⟨cur.reverse⟩ : String) :: splitLinesF f [] []
    else if c == '\n' then (⟨cur.reverse⟩ : String) :: splitLinesF f [] rest
    else splitLinesF f (c :: cur) rest

/-- Line splitter driver. -/
def splitLines (l : List Char) : List String := splitLinesF l.length [] l

/-- Matcher for `" -(\d)"` replaced by `" <font color=#be0000>-</font>$1"`. -/
def dashDigitMatch (s : List Char) : Option (List Char × Nat) :=
  match s with
  | ' ' :: '-' :: d :: _ =>
    if d.isDigit then some ((" <font color=#be0000>-</font>").data ++ [d], 3) else none
  | _ => none

/-- Java `formatBetakaValue`: western numerals, red dashes, parentheses and
Arabic commas. -/
def formatBetakaValue (value : String) : String :=
  let v := value.data.map arabicToWesternDigit
  let v := replaceAllL (" - ").data (" <font color=#be0000>-</font> ").data v
  let v := scanRepl dashDigitMatch v
  let v := replaceAllL ("(").data ("<font color=#be0000>(</font>").data v
  let v := replaceAllL (")").data ("<font color=#be0000>)</font>").data v
  let v := replaceAllL ("،").data ("<font color=#be0000>،</font>").data v
  ⟨v⟩

/-- First index at which `needle` occurs in the list, scanning from the
front (Java `indexOf` for a substring). -/
def idxOfSubAux (needle : List Char) : List Char → Nat → Option Nat
  | [], i => if needle.isEmpty then some i else none
  | c :: rest, i =>
    if leadsWith needle (c :: rest) then some i else idxOfSubAux needle rest (i + 1)

/-- First index of character `c` at or after position `start` (Java
`indexOf(char, from)`). -/
def idxOfCharFrom (hay : List Char) (c : Char) (start : Nat) : Option Nat :=
  match (hay.drop start).findIdx? (fun x => x == c) with
  | some i => some (start + i)
  | none => none

/-- Extract the value of the `"date"` key from the metadata blob, mirroring
the index arithmetic of the source (`indexOf("\"date\"")`, a quote from
seven characters later, the closing quote after it; the source's
`valueStart > 0 && valueEnd > valueStart` guards become the `none` cases). -/
def extractDate (md : List Char) : Option String :=
  match idxOfSubAux (("\"date\"").data) md 0 with
  | none => none
  | some i =>
    match idxOfCharFrom md dq (i + 7) with
    | none => none
    | some j =>
      match idxOfCharFrom md dq (j + 1) with
      | none => none
      | some k => if j + 1 < k then some ⟨(md.drop (j + 1)).take (k - (j + 1))⟩ else none

/-- The fixed Hijri month-name table. -/
def hijriMonths : List String :=
  ["محرم", "صفر", "ربيع الأول", "ربيع الثاني",
   "جمادى الأولى", "جمادى الآخرة", "رجب", "شعبان",
   "رمضان", "شوال", "ذو القعدة", "ذو الحجة"]

/-- Java `formatShamelaDate`: an eight-character `DDMMYYYY` string rendered
as `D monthname Y`; `none` where the source returns `null` (wrong length,
unparseable digits, month out of range). -/
def formatShamelaDate (dateStr : String) : Option String :=
  if dateStr.length ≠ 8 then none
  else
    match parseIntJava (dateStr.data.take 2),
          parseIntJava ((dateStr.data.drop 2).take 2),
          parseIntJava ((dateStr.data.drop 4).take 4) with
    | some day, some month, some year =>
      if 1 ≤ month ∧ month ≤ 12 then
        some (toString day ++ " " ++ hijriMonths.getD (month.toNat - 1) "" ++ " " ++ toString year)
      else none
    | _, _, _ => none

/-- A betaka line that is not a label/value line: bracketed note or
verbatim. -/
def bracketOrPlainLine (l : List Char) : String :=
  if leadsWith (("[").data) l && l.getLast? == some ']' then
    "<p><font color=#be0000>[</font>" ++ (⟨(l.drop 1).dropLast⟩ : String) ++
      "<font color=#be0000>]</font>"
  else "<p>" ++ (⟨l⟩ : String)

/-- One line of the betaka block: trimmed; empty lines render nothing; a
colon at offset 1–29 makes a styled label/value pair; else bracketed note or
verbatim. -/
def betakaLine (raw : String) : String :=
  let l := trimJava raw.data
  if l.isEmpty then ""
  else
    match l.findIdx? (fun c => c == ':') with
    | some i =>
      if 0 < i ∧ i < 30 then
        let label := formatBetakaValue ⟨trimJava (l.take i)⟩
        let value := formatBetakaValue ⟨trimJava (l.drop (i + 1))⟩
        "<p><span class='title'>" ++ label ++ "<font color=#be0000>:</font></span> " ++ value
      else bracketOrPlainLine l
    | none => bracketOrPlainLine l

/-- The book-info record produced by `getBook` (catalog row joined with the
author and category display names; fields not used by the export are
omitted). -/
structure StoreBook where
  bookName : String
  authorName : Option String
  categoryName : Option String
  metaData : Option String
deriving DecidableEq, Repr

/-- Java `buildBetakaPage`: title with author, category line, rule, parsed
betaka lines, optional publication-date line. -/
def buildBetakaPage (bookInfo : StoreBook) (betakaText : String) : String :=
  let h := "<div class='PageText'>" ++ "<span class='title'>" ++ bookInfo.bookName ++
    "&nbsp;&nbsp;&nbsp;</span>"
  let h := match bookInfo.authorName with
    | some a => h ++ "<span class='footnote'>(" ++ a ++ ")</span>"
    | none => h
  let h := match bookInfo.categoryName with
    | some c => h ++ "<p><span class='title'>القسم:</span> " ++ c
    | none => h
  let h := h ++ "<hr>"
  let h := if betakaText.isEmpty then h
    else (splitLines betakaText.data).foldl (fun acc line => acc ++ betakaLine line) h
  let h := match bookInfo.metaData with
    | some md =>
      if hasSubS md "date" then
        match extractDate md.data with
        | some d =>
          match formatShamelaDate d with
          | some fd =>
            h ++ "<p><span class='title'>تاريخ النشر بالشاملة<font color=#be0000>:</font></span> "
              ++ fd
          | none => h
        | none => h
      else h
    | none => h
  h ++ "</div>\n"

/- ### HTML template and the document assembler -/

/-- The fixed HTML header template (the Java text block, byte for byte:
literal braces are written `\x7b`/`\x7d`). -/
def HTML_HEADER : String :=
  "\n<!DOCTYPE html><html lang='ar' dir='rtl'><head><meta content='text/html; charset=UTF-8' http-equiv='Content-Type'><style>@media all\n"
  ++ "\x7b\n"
  ++ "\n"
  ++ "body\n"
  ++ "\x7b\n"
  ++ "direction: rtl;\n"
  ++ "background-color: #D4D4D4;\n"
  ++ "line-height: 2;\n"
  ++ "font: bold 18pt \"Traditional Naskh\";\n"
  ++ "text-align: center;\n"
  ++ "\x7d\n"
  ++ "\n"
  ++ "hr \x7bclear:both; color: #221122;\x7d\n"
  ++ "p \x7bmargin: 0px;\x7d\n"
  ++ ".title \x7bcolor: #800000;\x7d\n"
  ++ ".footnote, .PageHead \x7bfont: bold 16pt \"Traditional Naskh\"; color: #464646;\x7d\n"
  ++ ".PageHead \x7bfont-style: italic\x7d\n"
  ++ ".PartName \x7bfloat:right;\x7d\n"
  ++ ".PageNumber \x7bfloat:left;\x7d\n"
  ++ "\n"
  ++ ".Main \x7btext-align:right; margin: 0 auto; max-width: 780px;\x7d\n"
  ++ "\n"
  ++ ".PageText\n"
  ++ "\x7b\n"
  ++ "text-align: justify;\n"
  ++ "background-color: #EFEBD6;\n"
  ++ "margin-top: 20px;\n"
  ++ "padding: 90px 90px 90px 90px;\n"
  ++ "border: solid 1px gray;\n"
  ++ "border-right-width: 4px;\n"
  ++ "border-bottom-width: 4px;\n"
  ++ "\x7d\n"
  ++ "\n"
  ++ "Table\n"
  ++ "\x7b\n"
  ++ "background-color: #800000;\n"
  ++ "width: 90%;\n"
  ++ "\x7d\n"
  ++ "\n"
  ++ "TD \x7bbackground-color: #fefbe7; padding: 0px 10px 0px 10px; vertical-align:middle;\x7d \n"
  ++ "TH \x7bbackground-color: #e3e1cf; padding: 0px 10px 0px 10px; text-align:center; vertical-align:middle;\x7d\n"
  ++ "\x7d\n"
  ++ "\n"
  ++ "@media print\n"
  ++ "\x7b\n"
  ++ ".Main \x7bwidth:650px;\x7d\n"
  ++ ".PageText\n"
  ++ "\n"
  ++ "\x7b\n"
  ++ "page-break-before:always;\n"
  ++ "border-width:0px;\n"
  ++ "margin:0px;\n"
  ++ "padding:1px;\n"
  ++ "\x7d\n"
  ++ "\n"
  ++ "\x7d\n"
  ++ "</style><title>"

/-- End of the title element and opening of the main container. -/
def HTML_TITLE_END : String := "</title></head><body><div class='Main'>\n"

/-- The fixed document footer. -/
def HTML_FOOTER : String := "</div></body></html>"

/-- One page-structure row (`SELECT id, part, page, number FROM page ORDER
BY id`); `part`, `page` and `number` are nullable columns. -/
structure PageRow where
  id : Nat
  part : Option String
  page : Option Int
  number : Option Int
deriving DecidableEq, Repr

/-- The content stored for one page key in the text index: optional body and
optional footnote field. -/
def PageContent : Type := Option String × Option String

instance : DecidableEq PageContent := by
  unfold PageContent
  infer_instance

/-- Body/footnote presence test (Java
`texts != null && texts[i] != null && !texts[i].isEmpty()` split into the
per-field half). -/
def hasText : Option String → Bool
  | some s => !s.isEmpty
  | none => false

/-- The document title and per-page header name: the book name, suffixed
with `- جـ N` (native numerals) for a numeric part label, with `- label` for
a non-empty non-numeric label, with nothing for an empty label (the source
computes this twice, for `title` and `headerPartName`, with identical
logic). -/
def mkTitle (bookName : String) (partName : String) : String :=
  if partName.isEmpty then bookName
  else if isNumericStr partName then
    bookName ++ " - جـ " ++ toArabicNumerals (Int.ofNat (parseNatDigits partName.data))
  else bookName ++ " - " ++ partName

/-- Java `replaceFirst("^<sup>(<font color=#be0000>\\(\\d+\\)</font>)</sup>", "$1")`:
drop the superscript wrapper around a leading footnote marker. -/
def dropLeadingSup (ff : String) : String :=
  match dropLit (("<sup><font color=#be0000>(").data) ff.data with
  | none => ff
  | some r1 =>
    let ds := r1.takeWhile Char.isDigit
    if ds.isEmpty then ff
    else
      match dropLit ((")</font></sup>").data) (r1.dropWhile Char.isDigit) with
      | none => ff
      | some r2 => ⟨("<font color=#be0000>(").data ++ ds ++ (")</font>").data ++ r2⟩

/-- The body/footnote composition inside one page block, together with a
flag recording whether the `[No content available]` placeholder branch was
taken.  Mirrors the `hasBody`/`hasFoot` branching of `exportPart` and
`exportPartToMemory` (which duplicate the same code). -/
def pageBodyHtml (body foot : Option String) : String × Bool :=
  let hasBody := hasText body
  let hasFoot := hasText foot
  if hasBody then
    let fb := formatText (body.getD "")
    let hasInline := hasSubS fb "<div class='footnote'>"
    if hasFoot then
      let ff := formatText (foot.getD "")
      let ff := if leadsWithS ff "<sup><font color=#be0000>(" then dropLeadingSup ff else ff
      (fb ++ "<hr width='95' align='right'><div class='footnote'>" ++ ff ++ "</div>", false)
    else if hasInline then (fb ++ "<p></div>", false)
    else (fb, false)
  else if hasFoot then
    let ff := formatText (foot.getD "")
    (ff ++ (if hasSubS ff "<div class='footnote'>" then "<p></div>" else ""), false)
  else ("[No content available]", true)

/-- One rendered page block: `PageText` wrapper, `PageHead` header (part
name and, when the printed page number exists, a native-numeral page-number
marker), then the body composition. -/
def renderPageBlock (headerPartName : String) (texts : Nat → Option PageContent)
    (p : PageRow) : String :=
  let t := texts p.id
  let body := match t with | some c => c.1 | none => none
  let foot := match t with | some c => c.2 | none => none
  "<div class='PageText'>" ++
  "<div class='PageHead'>" ++ "<span class='PartName'>" ++ headerPartName ++ "</span>" ++
  (match p.page with
   | some n => "<span class='PageNumber'>(ص: " ++ toArabicNumerals n ++ ")</span>"
   | none => "") ++
  "<hr/></div>" ++
  (pageBodyHtml body foot).1 ++
  "</div>\n"

/-- `"\n"` replaced by `"\r\n"` (the final
`html.toString().replace("\n", "\r\n")`; a single-character needle makes the
literal replace a per-character expansion). -/
def crlfL : List Char → List Char
  | [] => []
  | c :: r => if c == '\n' then '\r' :: '\n' :: crlfL r else c :: crlfL r

/-- String-level CRLF conversion. -/
def crlfS (s : String) : String := ⟨crlfL s.data⟩

/-- Java `exportPartToMemory` (and the document text of `exportPart`, which
builds the identical string before writing it to disk): header, title,
optional betaka page, page blocks, footer, then CRLF line endings. -/
def exportPartToMemory (bookInfo : StoreBook) (bookName : String) (partName : String)
    (pages : List PageRow) (texts : Nat → Option PageContent)
    (betaka : Option String) : String :=
  let title := mkTitle bookName partName
  let headerPartName := mkTitle bookName partName
  let pre := HTML_HEADER ++ title ++ HTML_TITLE_END
  let pre := match betaka with
    | some b => pre ++ buildBetakaPage bookInfo b
    | none => pre
  let withPages := pages.foldl (fun acc p => acc ++ renderPageBlock headerPartName texts p) pre
  crlfS (withPages ++ HTML_FOOTER)

/- ### The store and alias resolution -/

/-- The read-only stores the exporter consults: the catalog row (with joined
author/category names, `getBook`), the metadata index (`getBetaka`), the
per-book structure store (`getBookPages`), the per-book alias table rows
(`getBookAliases`, in row order), and the text index
(`getPageTextsForBook`'s prefix query, keyed by book id and page id, `none`
when the index holds no document for the key). -/
structure Store where
  book : Nat → Option StoreBook
  betaka : Nat → Option String
  pages : Nat → List PageRow
  aliasRows : Nat → List (Nat × Nat × Nat)
  pageContent : Nat → Nat → Option PageContent

/-- Java `getPageTextsForBook`: the prefix query `"<bookId>-"` returns every
stored page of the book, modelled as the per-book lookup function. -/
def getPageTextsForBook (st : Store) (bookId : Nat) : Nat → Option PageContent :=
  st.pageContent bookId

/-- The alias map built from the rows `(this_id, book_id, page_id)`
(`aliases.put(thisId, …)` in row order: a later row with the same `this_id`
overwrites an earlier one, hence the lookup takes the last matching row). -/
def aliasLookup (rows : List (Nat × Nat × Nat)) (k : Nat) : Option (Nat × Nat) :=
  (rows.reverse.find? (fun r => r.1 == k)).map (fun r => r.2)

/-- Duplicate-free list keeping the first occurrence of each element in
order (the key order of a `LinkedHashMap`, and the set of groups of a
`HashMap` grouping). -/
def firstSeen {α : Type} [DecidableEq α] (l : List α) : List α :=
  l.reverse.dedup.reverse

/-- The donor books fetched during alias resolution: one
`getPageTextsForBook` call per distinct donor book id (the source groups the
alias map by donor book and queries each group once; the iteration order of
its `HashMap` is unspecified, so export functions below take the order as a
parameter and the canonical runs use this first-seen order). -/
def donorList (st : Store) (bookId : Nat) : List Nat :=
  firstSeen ((st.aliasRows bookId).map (fun r => r.2.1))

/-- Process one donor group: every local page whose alias points at donor
`d` receives the donor's content for the aliased page when that content
exists (`if (content != null) texts.put(thisPageId, content)`), otherwise
the previous entry stays. -/
def applyDonor (st : Store) (al : Nat → Option (Nat × Nat))
    (m : Nat → Option PageContent) (d : Nat) : Nat → Option PageContent :=
  let aliasTexts := getPageTextsForBook st d
  fun k =>
    match al k with
    | some bp =>
      if bp.1 = d then
        match aliasTexts bp.2 with
        | some c => some c
        | none => m k
      else m k
    | none => m k

/-- Java `getPageTexts`: direct page texts first (`putAll`), then each donor
group's remapped content in the given donor order. -/
def getPageTexts (st : Store) (bookId : Nat) (ds : List Nat) : Nat → Option PageContent :=
  ds.foldl (applyDonor st (aliasLookup (st.aliasRows bookId))) (getPageTextsForBook st bookId)

/-- `getPageTexts` run with the canonical (first-seen) donor order. -/
def getPageTextsCanon (st : Store) (bookId : Nat) : Nat → Option PageContent :=
  getPageTexts st bookId (donorList st bookId)

/- ### The export orchestrator -/

/-- Page-level completeness (`hasBody || hasFoot` of the validation loop). -/
def hasContent : Option PageContent → Bool
  | some c => hasText c.1 || hasText c.2
  | none => false

/-- The ids of the pages that fail the completeness validation, in page
order. -/
def missingIdsOf (pages : List PageRow) (texts : Nat → Option PageContent) : List Nat :=
  (pages.filter (fun p => !hasContent (texts p.id))).map (fun p => p.id)

/-- Java `List.toString` for a list of ints: `[a, b, c]`. -/
def javaListStr (l : List Nat) : String :=
  "[" ++ String.intercalate ", " (l.map toString) ++ "]"

/-- The completeness-violation message of `exportBook` and
`exportBookToMemory` (identical in both): violation count and up to ten
example page ids. -/
def completenessMsg (bookId : Nat) (missing : List Nat) : String :=
  let missingInfo :=
    if missing.length ≤ 10 then javaListStr missing
    else javaListStr (missing.take 10) ++ "... and " ++ toString (missing.length - 10) ++ " more"
  "Book " ++ toString bookId ++ " has " ++ toString missing.length ++
    " pages with no content available. Missing page IDs: " ++ missingInfo

/-- The part label used as grouping key (`null` becomes the empty string). -/
def partKey (p : PageRow) : String := p.part.getD ""

/-- The group keys of the `LinkedHashMap` grouping: distinct part labels in
first-seen page order. -/
def partKeys (pages : List PageRow) : List String := firstSeen (pages.map partKey)

/-- The part grouping: for each key in first-seen order, all pages carrying
that label, in page order (`parts.computeIfAbsent(partName, …).add(page)`
over a `LinkedHashMap`). -/
def partGroups (pages : List PageRow) : List (String × List PageRow) :=
  (partKeys pages).map (fun k => (k, pages.filter (fun p => partKey p == k)))

/-- The per-book output documents: one per part group, named by the
sequential file counter starting at 1 (`String.format("%03d.htm",
fileCounter)`). -/
def bookFiles (info : StoreBook) (betaka : Option String) (pages : List PageRow)
    (texts : Nat → Option PageContent) : List (String × String) :=
  (partGroups pages).enum.map (fun ig =>
    (fmt3 (ig.1 + 1) ++ ".htm",
     exportPartToMemory info info.bookName ig.2.1 ig.2.2 texts betaka))

/-- Java `exportBookToMemory`: throws (here `Except.error`) on a missing
book, an empty page list, or a completeness violation; otherwise the ordered
filename/document pairs.  `ds` is the donor iteration order of alias
resolution. -/
def exportBookToMemory (st : Store) (bookId : Nat) (ds : List Nat) :
    Except String (List (String × String)) :=
  match st.book bookId with
  | none => .error ("Book " ++ toString bookId ++ " not found in database")
  | some info =>
    let pages := st.pages bookId
    if pages.isEmpty then
      .error ("No pages found in book database for book " ++ toString bookId)
    else
      let texts := getPageTexts st bookId ds
      let missing := missingIdsOf pages texts
      if !missing.isEmpty then .error (completenessMsg bookId missing)
      else .ok (bookFiles info (st.betaka bookId) pages texts)

/-- Filesystem effects of the file-based export mode. -/
inductive FsOp where
  | mkdir (path : String)
  | write (path : String) (content : String)
deriving DecidableEq, Repr

/-- Java `exportBook` (file mode): returns `ok none` (Java `null`) for a
missing book or an empty page list, throws on a completeness violation, and
otherwise creates the sanitized book directory and writes one document per
part — the effect trace is empty on every failure path, since validation
precedes the first filesystem effect. -/
def exportBook (st : Store) (bookId : Nat) (ds : List Nat) :
    Except String (Option String) × List FsOp :=
  match st.book bookId with
  | none => (.ok none, [])
  | some info =>
    let pages := st.pages bookId
    if pages.isEmpty then (.ok none, [])
    else
      let texts := getPageTexts st bookId ds
      let missing := missingIdsOf pages texts
      if !missing.isEmpty then (.error (completenessMsg bookId missing), [])
      else
        let dir := safeName info.bookName
        let files := bookFiles info (st.betaka bookId) pages texts
        (.ok (some dir), .mkdir dir :: files.map (fun fc => .write (dir ++ "/" ++ fc.1) fc.2))

/-- `exportBookToMemory` with the canonical donor order. -/
def exportBookToMemoryCanon (st : Store) (bookId : Nat) :
    Except String (List (String × String)) :=
  exportBookToMemory st bookId (donorList st bookId)

/-- `exportBook` with the canonical donor order. -/
def exportBookCanon (st : Store) (bookId : Nat) : Except String (Option String) × List FsOp :=
  exportBook st bookId (donorList st bookId)

/-- Success test on an `Except` result. -/
def isOkE {α : Type} : Except String α → Bool
  | .ok _ => true
  | .error _ => false

/-- The in-memory documents of a successful canonical export (empty list on
failure). -/
def exportedFiles (st : Store) (bookId : Nat) : List (String × String) :=
  match exportBookToMemoryCanon st bookId with
  | .ok fs => fs
  | .error _ => []

/-- The ordered output filenames of a successful canonical export. -/
def exportedFileNames (st : Store) (bookId : Nat) : List String :=
  (exportedFiles st bookId).map (fun fc => fc.1)

/-- The error entry that `exportBooks` records for one book, `none` when the
book exports successfully: the `null`-return message for a not-found/no-pages
book, and `"Book <id>: " + e.getMessage()` for a caught exception. -/
def bookError (st : Store) (b : Nat) : Option String :=
  match exportBook st b (donorList st b) with
  | (.ok (some _), _) => none
  | (.ok none, _) =>
    some ("Book " ++ toString b ++ ": Export returned null (book not found or no pages)")
  | (.error m, _) => some ("Book " ++ toString b ++ ": " ++ m)

/-- The filesystem effects of one book's export within a batch. -/
def bookOps (st : Store) (b : Nat) : List FsOp :=
  (exportBook st b (donorList st b)).2

/-- One iteration of the `exportBooks` loop: record an error entry on a
`null` return or a caught exception, append the book's effects, continue. -/
def exportBooksStep (st : Store) (acc : List String × List FsOp) (b : Nat) :
    List String × List FsOp :=
  match exportBook st b (donorList st b) with
  | (.ok (some _), ops) => (acc.1, acc.2 ++ ops)
  | (.ok none, ops) =>
    (acc.1 ++ ["Book " ++ toString b ++ ": Export returned null (book not found or no pages)"],
     acc.2 ++ ops)
  | (.error m, ops) => (acc.1 ++ ["Book " ++ toString b ++ ": " ++ m], acc.2 ++ ops)

/-- Java `exportBooks` main loop: sequential, failure-isolating; returns the
recorded error list and the accumulated effect trace. -/
def exportBooks (st : Store) (ids : List Nat) : List String × List FsOp :=
  ids.foldl (exportBooksStep st) ([], [])

/-- The batch outcome: after the loop, `exportBooks` throws when any error
was recorded, carrying the aggregated message list. -/
def exportBooksResult (st : Store) (ids : List Nat) : Except String (List FsOp) :=
  let r := exportBooks st ids
  if r.1.isEmpty then .ok r.2
  else
    .error ("Export failed for " ++ toString r.1.length ++ " book(s):\n" ++
      String.intercalate "\n" r.1)

/- ### Auxiliary definitions for the theorems: concrete stores and
spec-side notions -/

/-- Store with one book whose page 1 has both a direct content entry and an
alias pointing at donor book 2, page 5, which also has content. -/
def c1St : Store where
  book := fun _ => none
  betaka := fun _ => none
  pages := fun _ => []
  aliasRows := fun b => if b = 1 then [(1, 2, 5)] else []
  pageContent := fun b p =>
    if b = 1 ∧ p = 1 then some (some "direct", none)
    else if b = 2 ∧ p = 5 then some (some "donor", none)
    else none

/-- Store for the determinism witness: two donor books feed book 1. -/
def c9St : Store where
  book := fun b => if b = 1 then some ⟨"B", none, none, none⟩ else none
  betaka := fun _ => none
  pages := fun b =>
    if b = 1 then [⟨1, none, none, none⟩, ⟨2, none, none, none⟩] else []
  aliasRows := fun b => if b = 1 then [(1, 2, 5), (2, 3, 6)] else []
  pageContent := fun b p =>
    if b = 2 ∧ p = 5 then some (some "x", none)
    else if b = 3 ∧ p = 6 then some (some "y", none)
    else none

/-- Store for the C2 witness: book 1 exists, its single page 7 has no
stored content anywhere. -/
def c2St : Store where
  book := fun b => if b = 1 then some ⟨"B", none, none, none⟩ else none
  betaka := fun _ => none
  pages := fun b => if b = 1 then [⟨7, none, none, none⟩] else []
  aliasRows := fun _ => []
  pageContent := fun _ _ => none

/-- Stated from the spec's words (not from the source): the number of
contiguous runs of equal part labels in structural order — the claim's
notion of "Part groupings". -/
def specContiguousRunCount : List String → Nat
  | [] => 0
  | [_] => 1
  | a :: b :: rest => (if a = b then 0 else 1) + specContiguousRunCount (b :: rest)

/-- Store for the C4 counterexample: part labels `A`, `B`, `A` in structural
order (three contiguous runs, two distinct labels). -/
def c4St : Store where
  book := fun b => if b = 1 then some ⟨"B", none, none, none⟩ else none
  betaka := fun _ => none
  pages := fun b =>
    if b = 1 then
      [⟨1, some "A", none, none⟩, ⟨2, some "B", none, none⟩, ⟨3, some "A", none, none⟩]
    else []
  aliasRows := fun _ => []
  pageContent := fun b _ => if b = 1 then some (some "x", none) else none

/-- Concatenation of a list of strings (left fold of append over the empty
string). -/
def joinStr (l : List String) : String := l.foldl (fun a b => a ++ b) ""

/-- Store for the C8 witness: a betaka text and two parts. -/
def c8St : Store where
  book := fun b => if b = 1 then some ⟨"B", none, none, none⟩ else none
  betaka := fun b => if b = 1 then some "ملاحظة" else none
  pages := fun b =>
    if b = 1 then [⟨1, some "1", none, none⟩, ⟨2, some "2", none, none⟩] else []
  aliasRows := fun _ => []
  pageContent := fun b _ => if b = 1 then some (some "x", none) else none

/-- Store for the C10 counterexample: the single page's body text is
literally the placeholder string, so it passes validation. -/
def c10St : Store where
  book := fun b => if b = 1 then some ⟨"B", none, none, none⟩ else none
  betaka := fun _ => none
  pages := fun b => if b = 1 then [⟨1, none, none, none⟩] else []
  aliasRows := fun _ => []
  pageContent := fun b p =>
    if b = 1 ∧ p = 1 then some (some "[No content available]", none) else none

/- ### Helper lemmas: alias resolution -/

/-- Unfolding of the donor-group fold: a page's final entry is the donor
content when the page's alias points at a processed donor that has content,
and the initial entry otherwise.  Only membership in the donor list matters,
not its order. -/
theorem foldl_applyDonor (st : Store) (al : Nat → Option (Nat × Nat)) :
    ∀ (ds : List Nat) (m : Nat → Option PageContent) (k : Nat),
    List.foldl (applyDonor st al) m ds k =
      (match al k with
       | some bp =>
         if bp.1 ∈ ds then
           match st.pageContent bp.1 bp.2 with
           | some c => some c
           | none => m k
         else m k
       | none => m k)
  | [], m, k => by cases h : al k <;> simp [h]
  | d :: ds, m, k => by
    rw [List.foldl_cons, foldl_applyDonor st al ds (applyDonor st al m d) k]
    cases h : al k with
    | none => simp [applyDonor, h]
    | some bp =>
      by_cases hd : bp.1 = d <;> by_cases hds : bp.1 ∈ ds <;>
        cases hc : st.pageContent bp.1 bp.2 <;>
        simp_all [applyDonor, getPageTextsForBook]

/-- Membership in `firstSeen` is membership in the underlying list. -/
theorem mem_firstSeen {α : Type} [DecidableEq α] (a : α) (l : List α) :
    a ∈ firstSeen l ↔ a ∈ l := by
  simp [firstSeen, List.mem_reverse, List.mem_dedup]

/-- A successful alias lookup's donor book is in the donor fetch list. -/
theorem aliasLookup_mem_donorList (st : Store) (bookId k : Nat) (bp : Nat × Nat)
    (h : aliasLookup (st.aliasRows bookId) k = some bp) :
    bp.1 ∈ donorList st bookId := by
  unfold aliasLookup at h
  cases hf : (st.aliasRows bookId).reverse.find? (fun r => r.1 == k) with
  | none => rw [hf] at h; simp at h
  | some r =>
    rw [hf] at h
    simp only [Option.map_some', Option.some.injEq] at h
    have hr : r ∈ (st.aliasRows bookId).reverse := List.mem_of_find?_eq_some hf
    have hm : r.2.1 ∈ (st.aliasRows bookId).map (fun r => r.2.1) :=
      List.mem_map_of_mem _ (List.mem_reverse.mp hr)
    rw [← h]
    exact (mem_firstSeen _ _).mpr hm

/- ### C1: alias-resolution merge precedence -/


/-- C1 counterexample: page 1 of book 1 has a direct entry, yet the merged
mapping returns the remapped donor entry — the donor content overrides the
existing direct entry, contradicting the claim that the returned entry
always equals the direct one. -/
theorem getPageTexts_direct_overridden_cex :
    getPageTextsForBook c1St 1 1 = some (some "direct", none) ∧
    getPageTextsCanon c1St 1 1 = some (some "donor", none) ∧
    getPageTextsCanon c1St 1 1 ≠ getPageTextsForBook c1St 1 1 := by
  refine ⟨by decide, by decide, by decide⟩

/-- C1 amended: in the merged mapping of `getPageTexts`, a page with an
alias whose donor content exists receives the donor content (remapped
entries override an existing direct entry); the direct entry is returned
only when the page has no alias or the donor has no stored content for the
aliased page. -/
theorem getPageTexts_merge_spec (st : Store) (bookId k : Nat) :
    getPageTextsCanon st bookId k =
      (match aliasLookup (st.aliasRows bookId) k with
       | some bp =>
         match st.pageContent bp.1 bp.2 with
         | some c => some c
         | none => getPageTextsForBook st bookId k
       | none => getPageTextsForBook st bookId k) := by
  unfold getPageTextsCanon getPageTexts
  rw [foldl_applyDonor]
  cases h : aliasLookup (st.aliasRows bookId) k with
  | none => rfl
  | some bp =>
    have hmem := aliasLookup_mem_donorList st bookId k bp h
    simp [hmem]

/- ### C5: one donor fetch per distinct donor book -/

/-- The donor fetch list has no duplicates. -/
theorem firstSeen_nodup {α : Type} [DecidableEq α] (l : List α) : (firstSeen l).Nodup := by
  rw [firstSeen, List.nodup_reverse]
  exact List.nodup_dedup _

/-- The length of `firstSeen` is the number of distinct elements. -/
theorem firstSeen_length_eq_card {α : Type} [DecidableEq α] (l : List α) :
    (firstSeen l).length = l.toFinset.card := by
  rw [firstSeen, List.length_reverse, ← List.card_toFinset]
  congr 1
  ext a
  simp

/-- `firstSeen` never lengthens a list. -/
theorem firstSeen_length_le {α : Type} [DecidableEq α] (l : List α) :
    (firstSeen l).length ≤ l.length := by
  rw [firstSeen, List.length_reverse]
  calc (l.reverse.dedup).length ≤ l.reverse.length := (List.dedup_sublist _).length_le
    _ = l.length := List.length_reverse _

/-- C5: alias resolution batches by donor book — the list of donor fetches
(one `getPageTextsForBook` prefix lookup per element, the fold of
`getPageTexts`) has exactly one entry per distinct donor book id of the
alias table, and never more entries than there are alias records. -/
theorem alias_fetches_one_per_donor (st : Store) (bookId : Nat) :
    (donorList st bookId).Nodup ∧
    (donorList st bookId).length =
      ((st.aliasRows bookId).map (fun r => r.2.1)).toFinset.card ∧
    (donorList st bookId).length ≤ (st.aliasRows bookId).length := by
  refine ⟨firstSeen_nodup _, firstSeen_length_eq_card _, ?_⟩
  calc (donorList st bookId).length
      ≤ ((st.aliasRows bookId).map (fun r => r.2.1)).length := firstSeen_length_le _
    _ = (st.aliasRows bookId).length := List.length_map _ _

/- ### C9: determinism / donor-order irrelevance -/

/-- C9: the in-memory export is deterministic — its output does not depend
on the iteration order of the donor-group hash map: any two donor orders
that enumerate the same donor books (both permutations of the donor list)
produce identical filename/document pairs.  Running the export twice over
the same store is the special case `ds₁ = ds₂`. -/
theorem exportBookToMemory_deterministic (st : Store) (bookId : Nat) (ds₁ ds₂ : List Nat)
    (h₁ : ds₁.Perm (donorList st bookId)) (h₂ : ds₂.Perm (donorList st bookId)) :
    exportBookToMemory st bookId ds₁ = exportBookToMemory st bookId ds₂ := by
  have htexts : getPageTexts st bookId ds₁ = getPageTexts st bookId ds₂ := by
    funext k
    unfold getPageTexts
    rw [foldl_applyDonor, foldl_applyDonor]
    cases h : aliasLookup (st.aliasRows bookId) k with
    | none => rfl
    | some bp =>
      have hiff : bp.1 ∈ ds₁ ↔ bp.1 ∈ ds₂ := by rw [h₁.mem_iff, h₂.mem_iff]
      by_cases hm : bp.1 ∈ ds₁
      · simp [hm, hiff.mp hm]
      · have hm2 : bp.1 ∉ ds₂ := fun hh => hm (hiff.mpr hh)
        simp [hm, hm2]
  unfold exportBookToMemory
  rw [htexts]


/-- Witness for C9: the two hash orders `[3, 2]` and `[2, 3]` over the
concrete two-donor store yield the same export. -/
theorem exportBookToMemory_deterministic_witness :
    exportBookToMemory c9St 1 [3, 2] = exportBookToMemory c9St 1 [2, 3] := by
  have hdl : donorList c9St 1 = [2, 3] := by decide
  exact exportBookToMemory_deterministic c9St 1 [3, 2] [2, 3]
    (by rw [hdl]; exact List.Perm.swap 2 3 [])
    (by rw [hdl])

/- ### C7: canonical diacritic order -/

/-- C7: for a logical character — a base character `c` that is not itself in
the swap class, carrying a gemination mark and a short-vowel mark from the
vowel/sukun class — both serializations (vowel before shadda and shadda
before vowel) are mapped by `reorderDiacritics` to the single canonical
order with the shadda first. -/
theorem reorderDiacritics_canonical (c v : Char) (hv : isSwapVowel v = true)
    (hc : isSwapVowel c = false) :
    reorderDiacritics ⟨[c, v, shaddaCh]⟩ = ⟨[c, shaddaCh, v]⟩ ∧
    reorderDiacritics ⟨[c, shaddaCh, v]⟩ = ⟨[c, shaddaCh, v]⟩ := by
  simp only [isSwapVowel, chr, Bool.or_eq_true, beq_iff_eq] at hv
  simp [isSwapVowel, chr] at hc
  obtain ⟨⟨⟨h1, h2⟩, h3⟩, h4⟩ := hc
  rcases hv with ((rfl | rfl) | rfl) | rfl <;>
    refine ⟨?_, ?_⟩ <;>
    simp [reorderDiacritics, reorderDiacriticsL, scanRepl, scanReplF, swapShaddaMatch,
      swapTanweenMatch, isSwapVowel, isTanween, h1, h2, h3, h4, shaddaCh, chr]

/-- Witness for C7 at the base letter ب with a fatha. -/
theorem reorderDiacritics_canonical_witness :
    reorderDiacritics ⟨['ب', chr 0x64E, shaddaCh]⟩ = ⟨['ب', shaddaCh, chr 0x64E]⟩ ∧
    reorderDiacritics ⟨['ب', shaddaCh, chr 0x64E]⟩ = ⟨['ب', shaddaCh, chr 0x64E]⟩ :=
  reorderDiacritics_canonical 'ب' (chr 0x64E) (by decide) (by decide)

/- ### C6: plain footnote-marker styling -/

/-- C6 counterexample: a plain four-digit marker at the start of the
footnote container is styled (the container-start rule matches any number
of digits), so the claimed restriction of styling to 1–2 digit numbers is
false there; the second conjunct shows the text is not left unstyled. -/
theorem formatText_container_four_digit_cex :
    formatText "a\n_________\n(1999) x" =
      "a<hr width='95' align='right'><div class='footnote'><font color=#be0000>(1999)</font> x" ∧
    formatText "a\n_________\n(1999) x" ≠
      "a<hr width='95' align='right'><div class='footnote'>(1999) x" := by
  refine ⟨by decide, by decide⟩

/-- C6 amended: immediately after a paragraph break the plain-marker rule
styles only 1–2 digit numbers followed by a space (`</p>(12) more` is
styled, `</p>(1999) more` is left unstyled), while at the start of the
footnote container a plain marker is styled whatever its digit count
(two-digit and four-digit alike). -/
theorem formatText_plain_marker_styling :
    formatText "a\n(12) more" = "a</p><font color=#be0000>(12)</font> more" ∧
    formatText "a\n(1999) more" = "a</p>(1999) more" ∧
    formatText "a\n_________\n(12) x" =
      "a<hr width='95' align='right'><div class='footnote'><font color=#be0000>(12)</font> x" ∧
    formatText "a\n_________\n(1999) x" =
      "a<hr width='95' align='right'><div class='footnote'><font color=#be0000>(1999)</font> x" := by
  refine ⟨by decide, by decide, by decide, by decide⟩

/- ### C2: the completeness gate writes nothing -/

/-- C2: for a book that exists in the catalog, if any page of its page list
resolves to neither body nor footnote content, the file-mode export fails
with the completeness error and its filesystem-effect trace is empty: no
book directory is created and no document is written. -/
theorem exportBook_completeness_gate (st : Store) (bookId : Nat) (info : StoreBook)
    (p : PageRow) (hb : st.book bookId = some info) (hp : p ∈ st.pages bookId)
    (hc : hasContent (getPageTextsCanon st bookId p.id) = false) :
    (exportBookCanon st bookId).1 =
      .error (completenessMsg bookId
        (missingIdsOf (st.pages bookId) (getPageTextsCanon st bookId))) ∧
    (exportBookCanon st bookId).2 = [] := by
  have hne : (st.pages bookId).isEmpty = false := by
    cases hpp : st.pages bookId with
    | nil => rw [hpp] at hp; cases hp
    | cons a l => rfl
  have hpmem : p ∈ (st.pages bookId).filter
      (fun q => !hasContent (getPageTextsCanon st bookId q.id)) :=
    List.mem_filter.mpr ⟨hp, by simp [hc]⟩
  have hpid : p.id ∈ missingIdsOf (st.pages bookId) (getPageTextsCanon st bookId) :=
    List.mem_map_of_mem _ hpmem
  have hmiss : (missingIdsOf (st.pages bookId) (getPageTextsCanon st bookId)).isEmpty
      = false := by
    cases hm : missingIdsOf (st.pages bookId) (getPageTextsCanon st bookId) with
    | nil => rw [hm] at hpid; cases hpid
    | cons a l => rfl
  unfold exportBookCanon exportBook
  rw [hb]
  simp only [missingIdsOf, getPageTextsCanon] at hmiss ⊢
  simp [hne, hmiss]


/-- Witness for C2 at the concrete store. -/
theorem exportBook_completeness_gate_witness :
    hasContent (getPageTextsCanon c2St 1 7) = false ∧
    (exportBookCanon c2St 1).1 =
      .error (completenessMsg 1 (missingIdsOf (c2St.pages 1) (getPageTextsCanon c2St 1))) ∧
    (exportBookCanon c2St 1).2 = [] := by
  have h := exportBook_completeness_gate c2St 1 ⟨"B", none, none, none⟩
    ⟨7, none, none, none⟩ (by decide) (by decide) (by decide)
  exact ⟨by decide, h.1, h.2⟩

/- ### C3: batch isolation and aggregated batch failure -/

/-- Unfolding of the batch loop: the recorded errors are exactly the error
entries of the individual books in order, and the effect trace is the
concatenation of every book's own effect trace — one book's failure never
suppresses another book's writes. -/
theorem exportBooks_foldl (st : Store) :
    ∀ (ids : List Nat) (e : List String) (t : List FsOp),
    List.foldl (exportBooksStep st) (e, t) ids =
      (e ++ ids.filterMap (bookError st), t ++ (ids.map (bookOps st)).flatten)
  | [], e, t => by simp
  | b :: ids, e, t => by
    rw [List.foldl_cons]
    have hstep : exportBooksStep st (e, t) b =
        (e ++ (bookError st b).toList, t ++ bookOps st b) := by
      unfold exportBooksStep bookError bookOps
      rcases hx : exportBook st b (donorList st b) with ⟨m | (_ | dir), ops⟩ <;> simp [hx]
    rw [hstep, exportBooks_foldl st ids]
    cases hberr : bookError st b <;>
      simp [hberr, List.filterMap_cons, List.append_assoc]

/-- C3: the batch export records one `(bookId, message)` entry per failing
book and still accumulates every successful book's full effect trace; the
batch as a whole succeeds exactly when no failure was recorded, and
otherwise fails carrying the aggregated per-book failure messages. -/
theorem exportBooks_batch_isolation (st : Store) (ids : List Nat) :
    exportBooks st ids = (ids.filterMap (bookError st), (ids.map (bookOps st)).flatten) ∧
    exportBooksResult st ids =
      (if ids.filterMap (bookError st) = [] then
        .ok ((ids.map (bookOps st)).flatten)
       else
        .error ("Export failed for " ++ toString (ids.filterMap (bookError st)).length ++
          " book(s):\n" ++ String.intercalate "\n" (ids.filterMap (bookError st)))) := by
  have h := exportBooks_foldl st ids [] []
  simp only [List.nil_append] at h
  refine ⟨h, ?_⟩
  unfold exportBooksResult
  rw [show exportBooks st ids = _ from h]
  by_cases he : ids.filterMap (bookError st) = [] <;>
    simp [he, List.isEmpty_iff]

/- ### C4: part grouping and sequential file indices -/



/-- C4 counterexample: with labels `A, B, A` the export produces two
documents (one per distinct label), not three (one per contiguous run), so
the claimed equality between the document count and the number of
contiguous-run Part groupings fails. -/
theorem exportBook_parts_not_contiguous_cex :
    exportedFileNames c4St 1 = ["001.htm", "002.htm"] ∧
    specContiguousRunCount ((c4St.pages 1).map partKey) = 3 ∧
    (exportedFileNames c4St 1).length ≠ specContiguousRunCount ((c4St.pages 1).map partKey) := by
  refine ⟨by decide, by decide, by decide⟩

/-- Indexed-map lemma: enumerating a list and keeping a function of the
index is a map over `range`. -/
theorem enum_map_fst {α β : Type} (l : List α) (g : Nat → β) :
    l.enum.map (fun p => g p.1) = (List.range l.length).map g := by
  rw [List.enum_eq_zip_range,
    show (fun p : Nat × α => g p.1) = g ∘ Prod.fst from rfl, ← List.map_map]
  rw [List.map_fst_zip _ _ (by simp)]

/-- C4 amended: pages are grouped by distinct part label in first-seen
structural order (pages with an already-seen label join that earlier group
even when not contiguous with it); the output documents are one per such
group, with strictly sequential zero-padded file indices from `001` in that
order, independent of the labels' literal values. -/
theorem exportBook_sequential_part_files (st : Store) (bookId : Nat)
    (h : isOkE (exportBookToMemoryCanon st bookId) = true) :
    exportedFileNames st bookId =
      (List.range (partGroups (st.pages bookId)).length).map (fun i => fmt3 (i + 1) ++ ".htm") ∧
    (partGroups (st.pages bookId)).length = (partKeys (st.pages bookId)).length := by
  refine ⟨?_, by simp [partGroups]⟩
  obtain ⟨fs, hfs⟩ : ∃ fs, exportBookToMemoryCanon st bookId = Except.ok fs := by
    cases hx : exportBookToMemoryCanon st bookId with
    | ok fs => exact ⟨fs, rfl⟩
    | error m => rw [hx] at h; simp [isOkE] at h
  have hnames : exportedFileNames st bookId = fs.map (fun fc => fc.1) := by
    unfold exportedFileNames exportedFiles
    rw [hfs]
  rw [hnames]
  unfold exportBookToMemoryCanon exportBookToMemory at hfs
  cases hbook : st.book bookId with
  | none => rw [hbook] at hfs; simp at hfs
  | some info =>
    rw [hbook] at hfs
    simp only [] at hfs
    by_cases hpe : (st.pages bookId).isEmpty = true
    · rw [if_pos hpe] at hfs; simp at hfs
    · rw [if_neg hpe] at hfs
      by_cases hm : (missingIdsOf (st.pages bookId)
          (getPageTexts st bookId (donorList st bookId))).isEmpty = true
      · rw [if_neg (by simp [hm])] at hfs
        have hfs2 : bookFiles info (st.betaka bookId) (st.pages bookId)
            (getPageTexts st bookId (donorList st bookId)) = fs := by
          simpa using hfs
        rw [← hfs2]
        unfold bookFiles
        rw [List.map_map]
        exact enum_map_fst (partGroups (st.pages bookId)) (fun i => fmt3 (i + 1) ++ ".htm")
      · rw [if_pos (by simp [Bool.not_eq_true] at hm ⊢; exact hm)] at hfs
        simp at hfs

/-- Witness for C4: the concrete three-page store exports successfully and
its filenames are the sequential zero-padded indices. -/
theorem exportBook_sequential_part_files_witness :
    isOkE (exportBookToMemoryCanon c4St 1) = true ∧
    exportedFileNames c4St 1 =
      (List.range (partGroups (c4St.pages 1)).length).map (fun i => fmt3 (i + 1) ++ ".htm") :=
  ⟨by decide, (exportBook_sequential_part_files c4St 1 (by decide)).1⟩

/- ### C8: the betaka page leads every part document -/


/-- `crlfL` distributes over append. -/
theorem crlfL_append (a b : List Char) : crlfL (a ++ b) = crlfL a ++ crlfL b := by
  induction a with
  | nil => rfl
  | cons c r ih =>
    simp only [List.cons_append, crlfL]
    split <;> simp [ih]

/-- `crlfS` distributes over append. -/
theorem crlfS_append (a b : String) : crlfS (a ++ b) = crlfS a ++ crlfS b := by
  show String.mk (crlfL (a.data ++ b.data)) = String.mk (crlfL a.data ++ crlfL b.data)
  rw [crlfL_append]

/-- An append-accumulating fold factors through its initial value. -/
theorem foldl_strAppend_shift {α : Type} (f : α → String) :
    ∀ (l : List α) (init : String),
    l.foldl (fun acc p => acc ++ f p) init = init ++ l.foldl (fun acc p => acc ++ f p) ""
  | [], init => by simp
  | p :: l, init => by
    rw [List.foldl_cons, List.foldl_cons,
      foldl_strAppend_shift f l (init ++ f p), foldl_strAppend_shift f l ("" ++ f p)]
    simp [String.append_assoc]

/-- Joining the mapped blocks is the append-accumulating fold. -/
theorem joinStr_map {α : Type} (f : α → String) (l : List α) :
    joinStr (l.map f) = l.foldl (fun acc p => acc ++ f p) "" := by
  unfold joinStr
  rw [List.foldl_map]

/-- C8: when the book has a betaka text, every document of the successful
in-memory export — not only the first — begins with the HTML header, the
part title, the title end, and then the betaka page, before the joined page
blocks and the footer. -/
theorem betaka_first_block_every_part (st : Store) (bookId : Nat) (info : StoreBook)
    (b : String) (hb : st.book bookId = some info) (hbet : st.betaka bookId = some b)
    (h : isOkE (exportBookToMemoryCanon st bookId) = true) :
    ∀ fc ∈ exportedFiles st bookId, ∃ (t : String) (blocks : List String),
      fc.2 = crlfS (HTML_HEADER ++ t ++ HTML_TITLE_END ++ buildBetakaPage info b) ++
        crlfS (joinStr blocks ++ HTML_FOOTER) := by
  obtain ⟨fs, hfs⟩ : ∃ fs, exportBookToMemoryCanon st bookId = Except.ok fs := by
    cases hx : exportBookToMemoryCanon st bookId with
    | ok fs => exact ⟨fs, rfl⟩
    | error m => rw [hx] at h; simp [isOkE] at h
  have hfiles : exportedFiles st bookId = fs := by
    unfold exportedFiles
    rw [hfs]
  unfold exportBookToMemoryCanon exportBookToMemory at hfs
  rw [hb] at hfs
  simp only [] at hfs
  by_cases hpe : (st.pages bookId).isEmpty = true
  · rw [if_pos hpe] at hfs; simp at hfs
  · rw [if_neg hpe] at hfs
    by_cases hm : (missingIdsOf (st.pages bookId)
        (getPageTexts st bookId (donorList st bookId))).isEmpty = true
    · rw [if_neg (by simp [hm])] at hfs
      have hfs2 : bookFiles info (st.betaka bookId) (st.pages bookId)
          (getPageTexts st bookId (donorList st bookId)) = fs := by
        simpa using hfs
      intro fc hfc
      rw [hfiles, ← hfs2] at hfc
      unfold bookFiles at hfc
      obtain ⟨ig, _, rfl⟩ := List.mem_map.mp hfc
      refine ⟨mkTitle info.bookName ig.2.1,
        ig.2.2.map (renderPageBlock (mkTitle info.bookName ig.2.1)
          (getPageTexts st bookId (donorList st bookId))), ?_⟩
      show exportPartToMemory info info.bookName ig.2.1 ig.2.2
        (getPageTexts st bookId (donorList st bookId)) (st.betaka bookId) = _
      rw [hbet]
      unfold exportPartToMemory
      simp only []
      rw [foldl_strAppend_shift, joinStr_map, ← crlfS_append]
      simp [String.append_assoc]
    · rw [if_pos (by simp [Bool.not_eq_true] at hm ⊢; exact hm)] at hfs
      simp at hfs


/-- Witness for C8 at the concrete two-part store. -/
theorem betaka_first_block_every_part_witness :
    isOkE (exportBookToMemoryCanon c8St 1) = true ∧
    ∀ fc ∈ exportedFiles c8St 1, ∃ (t : String) (blocks : List String),
      fc.2 = crlfS (HTML_HEADER ++ t ++ HTML_TITLE_END ++
        buildBetakaPage ⟨"B", none, none, none⟩ "ملاحظة") ++
        crlfS (joinStr blocks ++ HTML_FOOTER) :=
  ⟨by decide,
   betaka_first_block_every_part c8St 1 ⟨"B", none, none, none⟩ "ملاحظة"
     (by decide) (by decide) (by decide)⟩

/- ### C10: the placeholder branch -/

/-- C10 amended, part one as claimed: page rendering is total — with
neither body nor footnote the composition takes the placeholder branch and
emits the literal `[No content available]`; part two: when the book passed
the completeness validation (empty missing list), no page of the book takes
the placeholder branch. -/
theorem pageBody_placeholder_unreachable :
    (∀ b f : Option String, hasText b = false → hasText f = false →
      pageBodyHtml b f = ("[No content available]", true)) ∧
    (∀ (st : Store) (bookId : Nat) (p : PageRow), p ∈ st.pages bookId →
      missingIdsOf (st.pages bookId) (getPageTextsCanon st bookId) = [] →
      (pageBodyHtml
        (match getPageTextsCanon st bookId p.id with | some c => c.1 | none => none)
        (match getPageTextsCanon st bookId p.id with | some c => c.2 | none => none)).2
        = false) := by
  constructor
  · intro b f hb hf
    simp [pageBodyHtml, hb, hf]
  · intro st bookId p hp hmiss
    have hct : hasContent (getPageTextsCanon st bookId p.id) = true := by
      by_contra hc
      have hcf : hasContent (getPageTextsCanon st bookId p.id) = false := by
        simpa using hc
      have hin : p.id ∈ missingIdsOf (st.pages bookId) (getPageTextsCanon st bookId) :=
        List.mem_map_of_mem _ (List.mem_filter.mpr ⟨hp, by simp [hcf]⟩)
      rw [hmiss] at hin
      cases hin
    cases ht : getPageTextsCanon st bookId p.id with
    | none => rw [ht] at hct; simp [hasContent] at hct
    | some c =>
      rw [ht] at hct
      simp only [hasContent, Bool.or_eq_true] at hct
      by_cases hb : hasText c.1 <;> by_cases hf : hasText c.2 <;>
        by_cases hin : hasSubS (formatText (c.1.getD "")) "<div class='footnote'>" <;>
        simp_all [pageBodyHtml]

/-- Witness for C10: the empty page takes the placeholder branch, and a
validated concrete page does not. -/
theorem pageBody_placeholder_unreachable_witness :
    pageBodyHtml none none = ("[No content available]", true) ∧
    (pageBodyHtml
      (match getPageTextsCanon c4St 1 1 with | some c => c.1 | none => none)
      (match getPageTextsCanon c4St 1 1 with | some c => c.2 | none => none)).2 = false :=
  ⟨pageBody_placeholder_unreachable.1 none none rfl rfl,
   pageBody_placeholder_unreachable.2 c4St 1 ⟨1, some "A", none, none⟩
     (by decide) (by decide)⟩


set_option maxRecDepth 100000 in
/-- C10 counterexample: a book that passes the completeness validation can
still emit a document containing the literal placeholder text (here because
the page's source text is that literal), so "no emitted document ever
contains it" is false as stated — only the placeholder *branch* is
unreachable. -/
theorem placeholder_in_document_cex :
    isOkE (exportBookToMemoryCanon c10St 1) = true ∧
    missingIdsOf (c10St.pages 1) (getPageTextsCanon c10St 1) = [] ∧
    hasSubS ((exportedFiles c10St 1).headD ("", "")).2 "[No content available]" = true := by
  refine ⟨by decide, by decide, by decide⟩

end Shamela
